import Mathlib

/-!
Shallow embedding of the jira-mcp request adapter and validation layer.

The embedding follows the TypeScript sources:
  - `ListIssuesTool` / `AddCommentTool` (tool handlers with per-field validators),
  - `CreateIssueTool` (create-issue handler and validator),
  - `JiraClientAdapter` (connection guard, defensive re-validation, error taxonomy).

JavaScript strings are modelled as Lean `String`; JavaScript numbers are
modelled as `ℚ` (every finite double is a rational, and the validators only
compare and floor them).  The untyped MCP argument bags are modelled with the
`JSValue` inductive, so the `typeof` checks of the source are represented.
-/

set_option maxRecDepth 4000

namespace JiraMcp

/-- ASCII whitespace removed by JavaScript `String.prototype.trim`
(space, tab, newline, carriage return, vertical tab, form feed). -/
def isWsChar (c : Char) : Bool :=
  c.toNat = 32 || c.toNat = 9 || c.toNat = 10 || c.toNat = 13 || c.toNat = 11 || c.toNat = 12

/-- `A`–`Z`. -/
def isUpperChar (c : Char) : Bool := 65 ≤ c.toNat && c.toNat ≤ 90

/-- `a`–`z`. -/
def isLowerChar (c : Char) : Bool := 97 ≤ c.toNat && c.toNat ≤ 122

/-- `0`–`9`. -/
def isDigitChar (c : Char) : Bool := 48 ≤ c.toNat && c.toNat ≤ 57

/-- `A`–`Z` or `a`–`z`. -/
def isAlphaChar (c : Char) : Bool := isUpperChar c || isLowerChar c

/-- Characters allowed after the first one in a field-name identifier. -/
def isIdentTailChar (c : Char) : Bool := isAlphaChar c || isDigitChar c || c = '_'

/-- ASCII upper-casing of one character, as `toUpperCase` does on ASCII. -/
def jsUpperChar (c : Char) : Char :=
  if isLowerChar c then Char.ofNat (c.toNat - 32) else c

/-- ASCII lower-casing of one character, as `toLowerCase` does on ASCII. -/
def jsLowerChar (c : Char) : Char :=
  if isUpperChar c then Char.ofNat (c.toNat + 32) else c

/-- Drop leading and trailing whitespace from a character list. -/
def trimList (cs : List Char) : List Char :=
  ((cs.dropWhile isWsChar).reverse.dropWhile isWsChar).reverse

/-- JavaScript `s.trim()`. -/
def jsTrim (s : String) : String := String.mk (trimList s.data)

/-- JavaScript `s.toUpperCase()` on ASCII strings. -/
def jsToUpper (s : String) : String := String.mk (s.data.map jsUpperChar)

/-- JavaScript `s.toLowerCase()` on ASCII strings. -/
def jsToLower (s : String) : String := String.mk (s.data.map jsLowerChar)

/-- Does the first list start the second one? -/
def startsList : List Char → List Char → Bool
  | [], _ => true
  | _ :: _, [] => false
  | a :: as, b :: bs => a == b && startsList as bs

/-- JavaScript `s.startsWith(p)`: does `p` start `s`? -/
def strStarts (p s : String) : Bool := startsList p.data s.data

/-- Does the needle occur as a contiguous run of the haystack list? -/
def containsList (needle : List Char) : List Char → Bool
  | [] => needle.isEmpty
  | c :: rest => startsList needle (c :: rest) || containsList needle rest

/-- JavaScript `hay.includes(needle)`. -/
def containsSub (hay needle : String) : Bool := containsList needle.data hay.data

/-- Split a character list at every occurrence of the separator; like the
JavaScript `split` with a one-character separator, the result always has at
least one (possibly empty) group. -/
def splitChar (sep : Char) : List Char → List (List Char)
  | [] => [[]]
  | c :: rest =>
      let r := splitChar sep rest
      if c = sep then [] :: r
      else
        match r with
        | [] => [[c]]
        | g :: gs => (c :: g) :: gs

/-- JavaScript `s.split(sep)` for a one-character separator. -/
def strSplit (s : String) (sep : Char) : List String :=
  (splitChar sep s.data).map String.mk

/-- Model of a JavaScript value as delivered in an untyped MCP argument bag. -/
inductive JSValue where
  | vstr : String → JSValue
  | vnum : ℚ → JSValue
  | vbool : Bool → JSValue
  | varr : List JSValue → JSValue
  | vobj : List (String × JSValue) → JSValue

/-- `Except` success test. -/
def isOkE {ε α : Type} : Except ε α → Bool
  | .ok _ => true
  | .error _ => false

/-! ### list-issues validator (`ListIssuesTool.validateAndParseParams`) -/

/-- Raw argument bag of the `list-issues` tool; `none` fields are absent keys. -/
structure ListIssuesArgs where
  jql : Option JSValue := none
  maxResults : Option JSValue := none
  startAt : Option JSValue := none
  fields : Option JSValue := none

/-- Validated `ListIssuesParams` (types/index.ts). -/
structure ListIssuesParams where
  jql : Option String := none
  maxResults : Option ℚ := none
  startAt : Option ℚ := none
  fields : Option String := none

/-- The regex `^[a-zA-Z][a-zA-Z0-9_]*(\.[a-zA-Z][a-zA-Z0-9_]*)*$` used for
field names: dot-separated identifiers, each starting with a letter. -/
def fieldNamePattern (s : String) : Bool :=
  (strSplit s '.').all fun part =>
    match part.data with
    | [] => false
    | c :: rest => isAlphaChar c && rest.all isIdentTailChar

/-- The `args.jql` block of `ListIssuesTool.validateAndParseParams`. -/
def checkJql : Option JSValue → Except String (Option String)
  | none => .ok none
  | some (.vstr s) => .ok (some (jsTrim s))
  | some _ => .error "jql parameter must be a string"

/-- The `args.maxResults` block: a number in `[1, 1000]`, floored. -/
def checkMaxResults : Option JSValue → Except String (Option ℚ)
  | none => .ok none
  | some (.vnum q) =>
      if q < 1 ∨ q > 1000 then .error "maxResults must be a number between 1 and 1000"
      else .ok (some ((Rat.floor q : ℤ) : ℚ))
  | some _ => .error "maxResults must be a number between 1 and 1000"

/-- The `args.startAt` block: a non-negative number, floored. -/
def checkStartAt : Option JSValue → Except String (Option ℚ)
  | none => .ok none
  | some (.vnum q) =>
      if q < 0 then .error "startAt must be a non-negative number"
      else .ok (some ((Rat.floor q : ℤ) : ℚ))
  | some _ => .error "startAt must be a non-negative number"

/-- The `args.fields` block: trim, split on commas, trim each token, reject
tokens failing `fieldNamePattern`, omit the field when empty after trim. -/
def checkFields : Option JSValue → Except String (Option String)
  | none => .ok none
  | some (.vstr s) =>
      let fieldsString := jsTrim s
      if fieldsString.length > 0 then
        let fieldNames := (strSplit fieldsString ',').map jsTrim
        let invalidFields := fieldNames.filter fun f => f.length = 0 || !fieldNamePattern f
        if invalidFields.length > 0 then
          .error ("Invalid field names: " ++ String.intercalate ", " invalidFields ++
            ". Field names must contain only letters, numbers, and underscores.")
        else .ok (some fieldsString)
      else .ok none
  | some _ => .error "fields parameter must be a string"

/-- `ListIssuesTool.validateAndParseParams`: a missing or non-object argument
bag yields empty params (default search); otherwise the four per-field blocks
run in source order, the first failure aborting the call. -/
def ListIssuesTool.validateAndParseParams (args : Option ListIssuesArgs) :
    Except String ListIssuesParams :=
  match args with
  | none => .ok {}
  | some a =>
    match checkJql a.jql with
    | .error e => .error e
    | .ok jql =>
    match checkMaxResults a.maxResults with
    | .error e => .error e
    | .ok mr =>
    match checkStartAt a.startAt with
    | .error e => .error e
    | .ok sa =>
    match checkFields a.fields with
    | .error e => .error e
    | .ok fs => .ok { jql := jql, maxResults := mr, startAt := sa, fields := fs }

/-! ### create-issue validator (`CreateIssueTool.validateAndParseParams`) -/

/-- Raw argument bag of the `create-issue` tool. -/
structure CreateIssueArgs where
  projectKey : Option JSValue := none
  issueType : Option JSValue := none
  summary : Option JSValue := none
  description : Option JSValue := none
  priority : Option JSValue := none
  assignee : Option JSValue := none
  labels : Option JSValue := none
  customFields : Option JSValue := none

/-- Validated `CreateIssueParams` (types/index.ts). -/
structure CreateIssueParams where
  projectKey : String
  issueType : String
  summary : String
  description : Option String := none
  priority : Option String := none
  assignee : Option String := none
  labels : Option (List String) := none
  customFields : Option (List (String × JSValue)) := none

/-- The regex `^[A-Z][A-Z0-9]*$` used for project keys: an uppercase letter
followed by uppercase letters and digits.  The source tests it on the raw
`args.projectKey`, before any trimming or upper-casing. -/
def projectKeyPattern (s : String) : Bool :=
  match s.data with
  | [] => false
  | c :: rest => isUpperChar c && rest.all fun d => isUpperChar d || isDigitChar d

/-- The `!args.x || typeof args.x !== 'string'` test: yields the string only
when the value is a non-empty (truthy) string. -/
def reqString (v : Option JSValue) : Option String :=
  match v with
  | some (.vstr s) => if s = "" then none else some s
  | _ => none

/-- The optional-string blocks (`description`/`priority`/`assignee`): absent
is kept absent, a string is trimmed, anything else raises `errMsg`. -/
def optTrimmedString (v : Option JSValue) (errMsg : String) :
    Except String (Option String) :=
  match v with
  | none => .ok none
  | some (.vstr s) => .ok (some (jsTrim s))
  | some _ => .error errMsg

/-- The `args.labels.filter(...).map(trim)` pipeline: a non-string entry
throws, entries empty after trim are dropped, survivors are trimmed. -/
def collectLabels : List JSValue → Except String (List String)
  | [] => .ok []
  | .vstr s :: rest =>
      match collectLabels rest with
      | .error e => .error e
      | .ok r => if (jsTrim s).length > 0 then .ok (jsTrim s :: r) else .ok r
  | _ :: _ => .error "all labels must be strings"

/-- The `args.labels` block: must be an array; if every entry is dropped the
`labels` field is omitted from the result. -/
def checkLabels : Option JSValue → Except String (Option (List String))
  | none => .ok none
  | some (.varr xs) =>
      match collectLabels xs with
      | .error e => .error e
      | .ok validLabels =>
          .ok (if validLabels.length > 0 then some validLabels else none)
  | some _ => .error "labels must be an array"

/-- The `Object.entries(args.customFields)` loop: keys empty after trim throw;
the non-fatal naming warning of the source is a log side effect and is not
modelled. -/
def collectCustomFields : List (String × JSValue) →
    Except String (List (String × JSValue))
  | [] => .ok []
  | (k, v) :: rest =>
      if (jsTrim k).length = 0 then .error "custom field keys must be non-empty strings"
      else
        match collectCustomFields rest with
        | .error e => .error e
        | .ok r => .ok ((k, v) :: r)

/-- The `args.customFields` block: must be a non-array object; if no entries
survive the field is omitted. -/
def checkCustomFields : Option JSValue →
    Except String (Option (List (String × JSValue)))
  | none => .ok none
  | some (.vobj entries) =>
      match collectCustomFields entries with
      | .error e => .error e
      | .ok valid => .ok (if valid.length > 0 then some valid else none)
  | some _ => .error "customFields must be an object"

/-- `CreateIssueTool.validateAndParseParams`, in source order: required-field
presence checks, the raw project-key pattern test, the summary emptiness and
length checks (the length check is on the untrimmed summary), then the
optional fields.  The project key handed downstream is trimmed and
upper-cased; issue type and summary are trimmed. -/
def CreateIssueTool.validateAndParseParams (args : Option CreateIssueArgs) :
    Except String CreateIssueParams :=
  match args with
  | none => .error "Arguments are required for creating an issue"
  | some a =>
    match reqString a.projectKey with
    | none => .error "projectKey is required and must be a string"
    | some projectKey =>
    match reqString a.issueType with
    | none => .error "issueType is required and must be a string"
    | some issueType =>
    match reqString a.summary with
    | none => .error "summary is required and must be a string"
    | some summary =>
    if !projectKeyPattern projectKey then
      .error "projectKey must contain only uppercase letters and numbers, starting with a letter"
    else if (jsTrim summary).length = 0 then
      .error "summary cannot be empty"
    else if summary.length > 255 then
      .error "summary cannot exceed 255 characters"
    else
    match optTrimmedString a.description "description must be a string" with
    | .error e => .error e
    | .ok description =>
    match optTrimmedString a.priority "priority must be a string" with
    | .error e => .error e
    | .ok priority =>
    match optTrimmedString a.assignee "assignee must be a string" with
    | .error e => .error e
    | .ok assignee =>
    match checkLabels a.labels with
    | .error e => .error e
    | .ok labels =>
    match checkCustomFields a.customFields with
    | .error e => .error e
    | .ok customFields =>
      .ok { projectKey := jsToUpper (jsTrim projectKey)
            issueType := jsTrim issueType
            summary := jsTrim summary
            description := description
            priority := priority
            assignee := assignee
            labels := labels
            customFields := customFields }

/-! ### add-comment validator (`AddCommentTool.validateAndParseParams`) -/

/-- Raw argument bag of the `add-comment` tool. -/
structure AddCommentArgs where
  issueKey : Option JSValue := none
  body : Option JSValue := none

/-- Validated `AddCommentParams` (types/index.ts). -/
structure AddCommentParams where
  issueKey : String
  body : String

/-- `AddCommentTool.validateAndParseParams`: truthiness and type checks only,
then both fields are trimmed. -/
def AddCommentTool.validateAndParseParams (args : Option AddCommentArgs) :
    Except String AddCommentParams :=
  match args with
  | none => .error "Arguments are required for adding a comment"
  | some a =>
    match reqString a.issueKey with
    | none => .error "issueKey is required and must be a string"
    | some issueKey =>
    match reqString a.body with
    | none => .error "body is required and must be a string"
    | some body => .ok { issueKey := jsTrim issueKey, body := jsTrim body }

/-! ### error taxonomy and backend failure model (`JiraClientAdapter`) -/

/-- The error values thrown inside the system: plain `Error` objects thrown by
the tool handlers, and the three typed adapter errors of types/index.ts. -/
inductive AppError where
  | jsError : String → AppError
  | connErr : String → AppError
  | authErr : String → AppError
  | valErr : String → Option String → AppError

/-- The `message` property carried by each thrown error. -/
def AppError.message : AppError → String
  | .jsError m => m
  | .connErr m => m
  | .authErr m => m
  | .valErr m _ => m

/-- Shape of a failure object coming out of the underlying jira-client:
optional `statusCode`/`status`, optional `message` string, optional
`errorMessages` array and `errors` map (modelled by its value list). -/
structure JSFailureObj where
  statusCode : Option ℕ := none
  status : Option ℕ := none
  message : Option String := none
  errorMessages : Option (List String) := none
  errors : Option (List String) := none

/-- A backend failure is either a thrown string or a failure object. -/
inductive JiraFailure where
  | ofString : String → JiraFailure
  | ofObj : JSFailureObj → JiraFailure

/-- `JiraClientAdapter.getErrorMessage`: literal string as-is; truthy
`message` field; `errorMessages` joined with `", "`; non-empty `errors`
values joined with `", "`; otherwise the fixed fallback string. -/
def getErrorMessage : JiraFailure → String
  | .ofString s => s
  | .ofObj e =>
      if (match e.message with | some m => m != "" | none => false) then
        e.message.getD ""
      else
        match e.errorMessages with
        | some msgs => String.intercalate ", " msgs
        | none =>
            match e.errors with
            | some vals =>
                if vals.length > 0 then String.intercalate ", " vals
                else "Unknown error occurred"
            | none => "Unknown error occurred"

/-- `JiraClientAdapter.isAuthenticationError`: status 401 or a message
containing "unauthorized" case-insensitively.  A thrown string has neither a
status nor a `message` property. -/
def isAuthenticationError : JiraFailure → Bool
  | .ofString _ => false
  | .ofObj e =>
      e.statusCode == some 401 || e.status == some 401 ||
      (match e.message with
       | some m => containsSub (jsToLower m) "unauthorized"
       | none => false)

/-- `JiraClientAdapter.isValidationError`: status 400 or a message containing
"validation" or "invalid" case-insensitively. -/
def isValidationError : JiraFailure → Bool
  | .ofString _ => false
  | .ofObj e =>
      e.statusCode == some 400 || e.status == some 400 ||
      (match e.message with
       | some m => containsSub (jsToLower m) "validation" ||
                   containsSub (jsToLower m) "invalid"
       | none => false)

/-- `JiraClientAdapter.handleJiraError`: classify the caught failure and wrap
its extracted message with the `"Failed to <operation>: "` prefix.  The
original failure is retained as the error cause in the source; the cause is
not needed by any claim and is not modelled. -/
def handleJiraError (err : JiraFailure) (operation : String) : AppError :=
  let message := getErrorMessage err
  if isAuthenticationError err then
    .authErr ("Failed to " ++ operation ++ ": " ++ message)
  else if isValidationError err then
    .valErr ("Failed to " ++ operation ++ ": " ++ message) none
  else
    .connErr ("Failed to " ++ operation ++ ": " ++ message)

/-- Outcome of one call into the underlying jira-client: a returned value or
a thrown failure. -/
inductive BackendOutcome (α : Type) where
  | success : α → BackendOutcome α
  | failure : JiraFailure → BackendOutcome α

/-! ### adapter operations -/

/-- An issue record fetched from the backend; its contents are opaque
pass-through data, only the key is inspected by the handlers. -/
structure JiraIssue where
  key : String

/-- Raw result of `client.searchJira` before the adapter normalizes it. -/
structure RawSearchResult where
  expand : Option String := none
  startAt : ℚ := 0
  maxResults : ℚ := 0
  total : ℚ := 0
  issues : Option (List JiraIssue) := none

/-- Normalized `JiraSearchResult` returned by the adapter. -/
structure JiraSearchResult where
  expand : String
  startAt : ℚ
  maxResults : ℚ
  total : ℚ
  issues : List JiraIssue

/-- A comment record from the backend (opaque pass-through data). -/
structure JiraComment where
  id : String
  body : String

/-- The partial creation response of `client.addNewIssue`. -/
structure CreatedRef where
  key : String

/-- Options handed to `client.searchJira`. -/
structure SearchOptions where
  jql : String
  startAt : ℚ
  maxResults : ℚ
  fields : Option (List String)

/-- JavaScript `x || d` on an optional string: the default replaces both an
absent and an empty (falsy) string. -/
def jsOrStr : Option String → String → String
  | some s, d => if s = "" then d else s
  | none, d => d

/-- JavaScript `x || d` on an optional number: the default replaces both an
absent and a zero (falsy) number. -/
def jsOrNum : Option ℚ → ℚ → ℚ
  | some q, d => if q = 0 then d else q
  | none, d => d

/-- The `searchOptions` object built inside `JiraClientAdapter.searchIssues`:
`jql` defaults to the empty string, `startAt` to 0, `maxResults` to 50, and
`fields` is split on commas when present and truthy. -/
def searchOptionsOf (params : ListIssuesParams) : SearchOptions :=
  { jql := jsOrStr params.jql ""
    startAt := jsOrNum params.startAt 0
    maxResults := jsOrNum params.maxResults 50
    fields :=
      match params.fields with
      | some s => if s = "" then none else some (strSplit s ',')
      | none => none }

/-- The error thrown by `JiraClientAdapter.ensureConnected`. -/
def notConnectedError : AppError :=
  .connErr "Jira client is not connected. Call connect() first."

/-- `JiraClientAdapter.searchIssues`: the connection guard, the option
defaults, the backend call, and the normalization of the raw result
(`expand || ''`, `issues || []`). -/
def JiraClientAdapter.searchIssues (connected : Bool) (params : ListIssuesParams)
    (backendSearch : SearchOptions → BackendOutcome RawSearchResult) :
    Except AppError JiraSearchResult :=
  if !connected then .error notConnectedError
  else
    match backendSearch (searchOptionsOf params) with
    | .success result =>
        .ok { expand := jsOrStr result.expand ""
              startAt := result.startAt
              maxResults := result.maxResults
              total := result.total
              issues := result.issues.getD [] }
    | .failure e => .error (handleJiraError e "search issues")

/-- `JiraClientAdapter.validateCreateIssueParams`: the adapter's defensive
re-validation of the required create fields. -/
def JiraClientAdapter.validateCreateIssueParams (params : CreateIssueParams) :
    Option AppError :=
  if params.projectKey = "" then some (.valErr "Project key is required" (some "projectKey"))
  else if params.issueType = "" then some (.valErr "Issue type is required" (some "issueType"))
  else if params.summary = "" ∨ (jsTrim params.summary).length = 0 then
    some (.valErr "Summary is required and cannot be empty" (some "summary"))
  else if params.summary.length > 255 then
    some (.valErr "Summary cannot exceed 255 characters" (some "summary"))
  else none

/-- The issue payload built by `JiraClientAdapter.buildIssueData`; the
`customFields` are merged into the field map by `Object.assign` in the source
and are carried here as the entry list. -/
structure IssueData where
  projectKey : String
  issueTypeName : String
  summary : String
  description : Option String
  priorityName : Option String
  assigneeName : Option String
  labels : Option (List String)
  customFields : Option (List (String × JSValue))

/-- `JiraClientAdapter.buildIssueData`: required fields always, optional
fields only when truthy (`labels` additionally requires a non-zero length). -/
def buildIssueData (params : CreateIssueParams) : IssueData :=
  { projectKey := params.projectKey
    issueTypeName := params.issueType
    summary := params.summary
    description :=
      (match params.description with
       | some d => if d = "" then none else some d
       | none => none)
    priorityName :=
      (match params.priority with
       | some p => if p = "" then none else some p
       | none => none)
    assigneeName :=
      (match params.assignee with
       | some a => if a = "" then none else some a
       | none => none)
    labels :=
      (match params.labels with
       | some ls => if ls.length > 0 then some ls else none
       | none => none)
    customFields := params.customFields }

/-- `JiraClientAdapter.createIssue`: connection guard, defensive validation,
`addNewIssue` with the built payload, then `findIssue` on the returned key;
a failure of either backend call is classified with operation
`"create issue"`. -/
def JiraClientAdapter.createIssue (connected : Bool) (params : CreateIssueParams)
    (backendAddNewIssue : IssueData → BackendOutcome CreatedRef)
    (backendFindIssue : String → BackendOutcome JiraIssue) :
    Except AppError JiraIssue :=
  if !connected then .error notConnectedError
  else
    match JiraClientAdapter.validateCreateIssueParams params with
    | some e => .error e
    | none =>
      match backendAddNewIssue (buildIssueData params) with
      | .failure e => .error (handleJiraError e "create issue")
      | .success result =>
        match backendFindIssue result.key with
        | .failure e => .error (handleJiraError e "create issue")
        | .success issue => .ok issue

/-- `JiraClientAdapter.addComment`: connection guard, truthiness checks on the
two string arguments, then the backend call, its failure classified with
operation `"add comment"`. -/
def JiraClientAdapter.addComment (connected : Bool) (issueKey body : String)
    (backendAddComment : String → String → BackendOutcome JiraComment) :
    Except AppError JiraComment :=
  if !connected then .error notConnectedError
  else if issueKey = "" then
    .error (.valErr "issueKey is required and must be a string" (some "issueKey"))
  else if body = "" then
    .error (.valErr "body is required and must be a string" (some "body"))
  else
    match backendAddComment issueKey body with
    | .success c => .ok c
    | .failure e => .error (handleJiraError e "add comment")

/-- `JiraClientAdapter.testConnection`: `false` without a client handle;
otherwise the current-user probe, an authentication failure of which becomes
`JiraAuthenticationError` with the `"Authentication failed: "` prefix and any
other failure `JiraConnectionError` with `"Connection test failed: "`. -/
def JiraClientAdapter.testConnection (clientExists : Bool)
    (probe : BackendOutcome Unit) : Except AppError Bool :=
  if !clientExists then .ok false
  else
    match probe with
    | .success _ => .ok true
    | .failure e =>
        if isAuthenticationError e then
          .error (.authErr ("Authentication failed: " ++ getErrorMessage e))
        else
          .error (.connErr ("Connection test failed: " ++ getErrorMessage e))

/-- `JiraClientAdapter.connect`: the client handle is assigned before the
connectivity probe runs, so it remains assigned even when the probe fails;
any error of the probe is wrapped as `JiraConnectionError` with prefix
`"Failed to connect to Jira: "` (the message extracted from the caught typed
error is its `message` property).  Returns the resulting client-handle state
together with the call outcome. -/
def JiraClientAdapter.connect (probe : BackendOutcome Unit) :
    Bool × Except AppError Unit :=
  let client := true
  match JiraClientAdapter.testConnection client probe with
  | .ok _ => (client, .ok ())
  | .error e =>
      (client, .error (.connErr ("Failed to connect to Jira: " ++ AppError.message e)))

/-! ### tool handlers -/

/-- The derived metadata added by `ListIssuesTool.execute`. -/
structure SearchMetadata where
  query : String
  returnedCount : ℕ
  totalAvailable : ℚ
  hasMore : Bool
  nextStartAt : ℚ

/-- Search result enhanced with handler metadata. -/
structure EnhancedSearchResult where
  result : JiraSearchResult
  metadata : SearchMetadata

/-- `ListIssuesTool.execute`: validation runs outside the try block, so its
errors propagate as thrown; only a failure of the adapter call is re-wrapped
with the `"Failed to list issues: "` prefix (every thrown value is an `Error`
here, so its `message` is used, never the `'Unknown error'` fallback). -/
def ListIssuesTool.execute (connected : Bool) (args : Option ListIssuesArgs)
    (backendSearch : SearchOptions → BackendOutcome RawSearchResult) :
    Except AppError EnhancedSearchResult :=
  match ListIssuesTool.validateAndParseParams args with
  | .error msg => .error (.jsError msg)
  | .ok params =>
    match JiraClientAdapter.searchIssues connected params backendSearch with
    | .ok result =>
        .ok { result := result
              metadata :=
                { query := jsOrStr params.jql "No JQL query (returning all issues)"
                  returnedCount := result.issues.length
                  totalAvailable := result.total
                  hasMore := decide (result.startAt + (result.issues.length : ℚ) < result.total)
                  nextStartAt := result.startAt + (result.issues.length : ℚ) } }
    | .error e => .error (.jsError ("Failed to list issues: " ++ AppError.message e))

/-- The success metadata added by `CreateIssueTool.execute`. -/
structure CreateMetadata where
  created : Bool
  url : String
  message : String

/-- Issue enhanced with creation metadata. -/
structure EnhancedIssue where
  issue : JiraIssue
  metadata : CreateMetadata

/-- `CreateIssueTool.buildIssueUrl`. -/
def buildIssueUrl (issueKey : String) : String :=
  "<jira-instance>/browse/" ++ issueKey

/-- `CreateIssueTool.execute`: validation outside the try block; adapter
failures re-wrapped with the `"Failed to create issue: "` prefix. -/
def CreateIssueTool.execute (connected : Bool) (args : Option CreateIssueArgs)
    (backendAddNewIssue : IssueData → BackendOutcome CreatedRef)
    (backendFindIssue : String → BackendOutcome JiraIssue) :
    Except AppError EnhancedIssue :=
  match CreateIssueTool.validateAndParseParams args with
  | .error msg => .error (.jsError msg)
  | .ok params =>
    match JiraClientAdapter.createIssue connected params backendAddNewIssue backendFindIssue with
    | .ok issue =>
        .ok { issue := issue
              metadata :=
                { created := true
                  url := buildIssueUrl issue.key
                  message := "Issue " ++ issue.key ++ " created successfully" } }
    | .error e => .error (.jsError ("Failed to create issue: " ++ AppError.message e))

/-- `AddCommentTool.execute`: validation outside the try block; adapter
failures re-wrapped with the `"Failed to add comment: "` prefix. -/
def AddCommentTool.execute (connected : Bool) (args : Option AddCommentArgs)
    (backendAddComment : String → String → BackendOutcome JiraComment) :
    Except AppError JiraComment :=
  match AddCommentTool.validateAndParseParams args with
  | .error msg => .error (.jsError msg)
  | .ok params =>
    match JiraClientAdapter.addComment connected params.issueKey params.body backendAddComment with
    | .ok comment => .ok comment
    | .error e => .error (.jsError ("Failed to add comment: " ++ AppError.message e))

/-! ### concrete inputs used by the counterexamples -/

/-- A summary of 255 `a` characters. -/
def summary255 : String := String.mk (List.replicate 255 'a')

/-- A summary of 256 characters whose trimmed length is 255. -/
def summary256 : String := String.mk (List.replicate 255 'a' ++ [' '])

/-! ### theorems for the claims -/

/-- C9: a `list-issues` invocation with an absent or empty argument bag
validates to empty parameters, and the search options built from empty
parameters default `jql` to the empty string, `startAt` to 0 and
`maxResults` to 50. -/
theorem c9_default_search :
    ListIssuesTool.validateAndParseParams none = .ok {} ∧
    ListIssuesTool.validateAndParseParams (some {}) = .ok {} ∧
    searchOptionsOf {} = { jql := "", startAt := 0, maxResults := 50, fields := none } := by
  exact ⟨rfl, rfl, rfl⟩

/-- C10: an `add-comment` body of `"  "` passes the handler's truthiness
check, is trimmed to the empty string, and the call then fails inside the
adapter, surfacing `"Failed to add comment: body is required and must be a
string"`; an empty-string body instead fails at the handler boundary with the
bare message `"body is required and must be a string"`, which the handler
also surfaces unprefixed. -/
theorem c10_whitespace_body :
    AddCommentTool.validateAndParseParams
      (some { issueKey := some (.vstr "PROJ-1"), body := some (.vstr "  ") }) =
      .ok { issueKey := "PROJ-1", body := "" } ∧
    (∀ backendAddComment,
      AddCommentTool.execute true
        (some { issueKey := some (.vstr "PROJ-1"), body := some (.vstr "  ") })
        backendAddComment =
        .error (.jsError "Failed to add comment: body is required and must be a string")) ∧
    AddCommentTool.validateAndParseParams
      (some { issueKey := some (.vstr "PROJ-1"), body := some (.vstr "") }) =
      .error "body is required and must be a string" ∧
    (∀ backendAddComment,
      AddCommentTool.execute true
        (some { issueKey := some (.vstr "PROJ-1"), body := some (.vstr "") })
        backendAddComment =
        .error (.jsError "body is required and must be a string")) := by
  exact ⟨rfl, fun _ => rfl, rfl, fun _ => rfl⟩

/-- C1, counterexample: the claim says input `"proj1"` passes validation as
normalized `"PROJ1"`, but the source tests the pattern on the raw key, so
`"proj1"` fails — even though its trimmed upper-cased form does match the
pattern. -/
theorem c1_counterexample :
    CreateIssueTool.validateAndParseParams
      (some { projectKey := some (.vstr "proj1"), issueType := some (.vstr "Task"),
              summary := some (.vstr "Fix") }) =
      .error "projectKey must contain only uppercase letters and numbers, starting with a letter" ∧
    projectKeyPattern (jsToUpper (jsTrim "proj1")) = true := by
  exact ⟨rfl, rfl⟩

/-- C2, counterexample: a validation failure of `add-comment` (absent
argument bag) propagates out of `execute` with the validator's own message,
not carrying the handler prefix `"Failed to add comment: "`. -/
theorem c2_counterexample :
    AddCommentTool.execute true none (fun _ _ => .success { id := "1", body := "hi" }) =
      .error (.jsError "Arguments are required for adding a comment") ∧
    strStarts "Failed to add comment: " "Arguments are required for adding a comment" = false := by
  exact ⟨rfl, rfl⟩

/-- C3, counterexample: a 401 failure of the `testConnection` probe surfaces
`JiraAuthenticationError` with prefix `"Authentication failed: "`, not the
claimed `"Failed to <operation>: "` shape. -/
theorem c3_counterexample :
    JiraClientAdapter.testConnection true
      (.failure (.ofObj { statusCode := some 401, message := some "bad credentials" })) =
      .error (.authErr "Authentication failed: bad credentials") ∧
    strStarts "Failed to" "Authentication failed: bad credentials" = false := by
  exact ⟨rfl, rfl⟩

/-- C4, counterexample: after a `connect()` whose probe failed (so `connect`
did not succeed), the client handle is already assigned, and a subsequent
`searchIssues` does not fail with a connection error — it reaches the backend
and returns its result. -/
theorem c4_counterexample :
    isOkE (JiraClientAdapter.connect
      (.failure (.ofObj { statusCode := some 500, message := some "gateway down" }))).2 = false ∧
    JiraClientAdapter.searchIssues
      (JiraClientAdapter.connect
        (.failure (.ofObj { statusCode := some 500, message := some "gateway down" }))).1
      {} (fun _ => .success {}) =
      .ok { expand := "", startAt := 0, maxResults := 0, total := 0, issues := [] } := by
  exact ⟨rfl, rfl⟩

/-- C5, counterexample: a 256-character summary whose trimmed length is 255
is rejected by both the handler validator and the adapter's defensive
re-validation, although the claim's acceptance condition (trimmed length
between 1 and 255) holds for it. -/
theorem c5_counterexample :
    summary256.length = 256 ∧ (jsTrim summary256).length = 255 ∧
    CreateIssueTool.validateAndParseParams
      (some { projectKey := some (.vstr "PROJ"), issueType := some (.vstr "Task"),
              summary := some (.vstr summary256) }) =
      .error "summary cannot exceed 255 characters" ∧
    JiraClientAdapter.validateCreateIssueParams
      { projectKey := "PROJ", issueType := "Task", summary := summary256 } =
      some (.valErr "Summary cannot exceed 255 characters" (some "summary")) := by
  exact ⟨rfl, rfl, rfl, rfl⟩

/-- C4, amended: the adapter operations fail with the not-connected
`JiraConnectionError` exactly when no client handle exists — independently of
the backend, so no backend request is attempted — but the handle is assigned
before the connectivity probe of `connect()`, so it exists even after a
failed `connect()`. -/
theorem c4_connection_guard :
    (∀ (params : ListIssuesParams) backendSearch,
      JiraClientAdapter.searchIssues false params backendSearch = .error notConnectedError) ∧
    (∀ (params : CreateIssueParams) backendAddNewIssue backendFindIssue,
      JiraClientAdapter.createIssue false params backendAddNewIssue backendFindIssue =
        .error notConnectedError) ∧
    (∀ (issueKey body : String) backendAddComment,
      JiraClientAdapter.addComment false issueKey body backendAddComment =
        .error notConnectedError) ∧
    (∀ probeFailure,
      (JiraClientAdapter.connect (.failure probeFailure)).1 = true ∧
      isOkE (JiraClientAdapter.connect (.failure probeFailure)).2 = false) := by
  refine ⟨fun _ _ => rfl, fun _ _ _ => rfl, fun _ _ _ => rfl, fun probeFailure => ?_⟩
  cases h : isAuthenticationError probeFailure <;>
    simp [JiraClientAdapter.connect, JiraClientAdapter.testConnection, h, isOkE]

/-- An uppercase letter or digit is not whitespace. -/
theorem upperDigit_not_ws {c : Char} (h : (isUpperChar c || isDigitChar c) = true) :
    isWsChar c = false := by
  simp [isUpperChar, isDigitChar, isWsChar] at h ⊢
  omega

/-- An uppercase letter or digit is not a lowercase letter. -/
theorem upperDigit_not_lower {c : Char} (h : (isUpperChar c || isDigitChar c) = true) :
    isLowerChar c = false := by
  simp [isUpperChar, isDigitChar, isLowerChar] at h ⊢
  omega

/-- Every character of a string matching the project-key pattern is neither
whitespace nor lowercase. -/
theorem projectKey_chars {s : String} (h : projectKeyPattern s = true) :
    ∀ c ∈ s.data, isWsChar c = false ∧ isLowerChar c = false := by
  intro c hc
  unfold projectKeyPattern at h
  cases hd : s.data with
  | nil => rw [hd] at hc; cases hc
  | cons a rest =>
    rw [hd] at h hc
    simp only [Bool.and_eq_true, List.all_eq_true] at h
    rcases List.mem_cons.mp hc with rfl | hmem
    · exact ⟨upperDigit_not_ws (by simp [h.1]), upperDigit_not_lower (by simp [h.1])⟩
    · exact ⟨upperDigit_not_ws (h.2 c hmem), upperDigit_not_lower (h.2 c hmem)⟩

/-- `dropWhile` of a whitespace-free list keeps it unchanged. -/
theorem dropWhile_ws_id {l : List Char} (h : ∀ c ∈ l, isWsChar c = false) :
    l.dropWhile isWsChar = l := by
  cases l with
  | nil => rfl
  | cons a as => simp [List.dropWhile, h a (List.mem_cons_self a as)]

/-- Trimming a whitespace-free list keeps it unchanged. -/
theorem trimList_id {l : List Char} (h : ∀ c ∈ l, isWsChar c = false) :
    trimList l = l := by
  unfold trimList
  rw [dropWhile_ws_id h,
    dropWhile_ws_id (fun c hc => h c (List.mem_reverse.mp hc)), List.reverse_reverse]

/-- Upper-casing a list without lowercase characters keeps it unchanged. -/
theorem map_upper_id {l : List Char} (h : ∀ c ∈ l, isLowerChar c = false) :
    l.map jsUpperChar = l := by
  induction l with
  | nil => rfl
  | cons a as ih =>
    simp [jsUpperChar, h a (List.mem_cons_self a as),
      ih (fun c hc => h c (List.mem_cons_of_mem a hc))]

/-- Trim-then-uppercase fixes any string already matching the raw
project-key pattern. -/
theorem jsToUpper_jsTrim_fixed {s : String} (h : projectKeyPattern s = true) :
    jsToUpper (jsTrim s) = s := by
  have hmem := projectKey_chars h
  show String.mk ((trimList s.data).map jsUpperChar) = s
  rw [trimList_id (fun c hc => (hmem c hc).1),
    map_upper_id (fun c hc => (hmem c hc).2)]

/-- C1, amended: `create-issue` validates `projectKey` against
`^[A-Z][A-Z0-9]*$` on the raw input, before any trimming or upper-casing, so
`"proj1"` fails; the key handed downstream is the trimmed upper-cased input,
which for every key passing the raw test equals the input unchanged. -/
theorem c1_projectKey_raw_validation (pk : String) (hpk : pk ≠ "")
    (hmatch : projectKeyPattern pk = true)
    (bad : String) (hbad : bad ≠ "") (hbadPat : projectKeyPattern bad = false) :
    CreateIssueTool.validateAndParseParams
      (some { projectKey := some (.vstr pk), issueType := some (.vstr "Task"),
              summary := some (.vstr "Fix") }) =
      .ok { projectKey := jsToUpper (jsTrim pk), issueType := "Task", summary := "Fix" } ∧
    jsToUpper (jsTrim pk) = pk ∧
    CreateIssueTool.validateAndParseParams
      (some { projectKey := some (.vstr bad), issueType := some (.vstr "Task"),
              summary := some (.vstr "Fix") }) =
      .error "projectKey must contain only uppercase letters and numbers, starting with a letter" := by
  refine ⟨?_, jsToUpper_jsTrim_fixed hmatch, ?_⟩
  · simp only [CreateIssueTool.validateAndParseParams, reqString, optTrimmedString,
      checkLabels, checkCustomFields, if_neg hpk, hmatch]
    rfl
  · simp [CreateIssueTool.validateAndParseParams, reqString, hbad, hbadPat]

/-- Witness for C1 at the spec's own examples: `"PROJ1"` passes unchanged,
`"1PROJ"` fails. -/
theorem c1_witness :
    CreateIssueTool.validateAndParseParams
      (some { projectKey := some (.vstr "PROJ1"), issueType := some (.vstr "Task"),
              summary := some (.vstr "Fix") }) =
      .ok { projectKey := jsToUpper (jsTrim "PROJ1"), issueType := "Task", summary := "Fix" } ∧
    jsToUpper (jsTrim "PROJ1") = "PROJ1" ∧
    CreateIssueTool.validateAndParseParams
      (some { projectKey := some (.vstr "1PROJ"), issueType := some (.vstr "Task"),
              summary := some (.vstr "Fix") }) =
      .error "projectKey must contain only uppercase letters and numbers, starting with a letter" :=
  c1_projectKey_raw_validation "PROJ1" (by decide) (by decide) "1PROJ" (by decide) (by decide)

/-- A failure object carrying status code 401 classifies as an
authentication error. -/
theorem statusCode401_isAuth {err : JSFailureObj} (h : err.statusCode = some 401) :
    isAuthenticationError (.ofObj err) = true := by
  simp [isAuthenticationError, h]

/-- C3, amended: a backend failure with `statusCode: 401` makes
`searchIssues`/`createIssue`/`addComment` surface `JiraAuthenticationError`
prefixed `"Failed to <operation>: "`, while `testConnection` surfaces
`JiraAuthenticationError` prefixed `"Authentication failed: "` instead. -/
theorem c3_auth_error_mapping (err : JSFailureObj) (hsc : err.statusCode = some 401)
    (params : ListIssuesParams)
    (cp : CreateIssueParams) (hcp : JiraClientAdapter.validateCreateIssueParams cp = none)
    (issueKey body : String) (hik : issueKey ≠ "") (hb : body ≠ "") :
    JiraClientAdapter.searchIssues true params (fun _ => .failure (.ofObj err)) =
      .error (.authErr ("Failed to search issues: " ++ getErrorMessage (.ofObj err))) ∧
    JiraClientAdapter.createIssue true cp (fun _ => .failure (.ofObj err))
      (fun _ => .success { key := "X-1" }) =
      .error (.authErr ("Failed to create issue: " ++ getErrorMessage (.ofObj err))) ∧
    JiraClientAdapter.addComment true issueKey body (fun _ _ => .failure (.ofObj err)) =
      .error (.authErr ("Failed to add comment: " ++ getErrorMessage (.ofObj err))) ∧
    JiraClientAdapter.testConnection true (.failure (.ofObj err)) =
      .error (.authErr ("Authentication failed: " ++ getErrorMessage (.ofObj err))) := by
  have hauth := statusCode401_isAuth hsc
  refine ⟨?_, ?_, ?_, ?_⟩
  · simp [JiraClientAdapter.searchIssues, handleJiraError, hauth]
  · simp [JiraClientAdapter.createIssue, handleJiraError, hauth, hcp]
  · simp [JiraClientAdapter.addComment, handleJiraError, hauth, hik, hb]
  · simp [JiraClientAdapter.testConnection, hauth]

/-- Witness for C3 at a concrete 401 failure and concrete arguments. -/
theorem c3_witness :
    JiraClientAdapter.searchIssues true {}
      (fun _ => .failure (.ofObj { statusCode := some 401, message := some "nope" })) =
      .error (.authErr ("Failed to search issues: " ++
        getErrorMessage (.ofObj { statusCode := some 401, message := some "nope" }))) ∧
    JiraClientAdapter.createIssue true
      { projectKey := "PROJ", issueType := "Task", summary := "Fix" }
      (fun _ => .failure (.ofObj { statusCode := some 401, message := some "nope" }))
      (fun _ => .success { key := "X-1" }) =
      .error (.authErr ("Failed to create issue: " ++
        getErrorMessage (.ofObj { statusCode := some 401, message := some "nope" }))) ∧
    JiraClientAdapter.addComment true "PROJ-1" "hello"
      (fun _ _ => .failure (.ofObj { statusCode := some 401, message := some "nope" })) =
      .error (.authErr ("Failed to add comment: " ++
        getErrorMessage (.ofObj { statusCode := some 401, message := some "nope" }))) ∧
    JiraClientAdapter.testConnection true
      (.failure (.ofObj { statusCode := some 401, message := some "nope" })) =
      .error (.authErr ("Authentication failed: " ++
        getErrorMessage (.ofObj { statusCode := some 401, message := some "nope" }))) :=
  c3_auth_error_mapping { statusCode := some 401, message := some "nope" } rfl {}
    { projectKey := "PROJ", issueType := "Task", summary := "Fix" } rfl
    "PROJ-1" "hello" (by decide) (by decide)

/-- C2, amended: in each tool handler only a failure of the adapter call is
re-wrapped with the handler-level prefix (`"Failed to list issues: "`,
`"Failed to create issue: "`, `"Failed to add comment: "`); a failure of
argument validation happens outside the handler's try block and propagates
with the validator's own unprefixed message. -/
theorem c2_prefix_scope (conn : Bool)
    (la : Option ListIssuesArgs) (lp : ListIssuesParams)
    (lb : SearchOptions → BackendOutcome RawSearchResult) (le : AppError)
    (hl1 : ListIssuesTool.validateAndParseParams la = .ok lp)
    (hl2 : JiraClientAdapter.searchIssues conn lp lb = .error le)
    (la2 : Option ListIssuesArgs) (lm : String)
    (hl3 : ListIssuesTool.validateAndParseParams la2 = .error lm)
    (ca : Option CreateIssueArgs) (cp : CreateIssueParams)
    (cb1 : IssueData → BackendOutcome CreatedRef)
    (cb2 : String → BackendOutcome JiraIssue) (ce : AppError)
    (hc1 : CreateIssueTool.validateAndParseParams ca = .ok cp)
    (hc2 : JiraClientAdapter.createIssue conn cp cb1 cb2 = .error ce)
    (ca2 : Option CreateIssueArgs) (cm : String)
    (hc3 : CreateIssueTool.validateAndParseParams ca2 = .error cm)
    (aa : Option AddCommentArgs) (ap : AddCommentParams)
    (ab : String → String → BackendOutcome JiraComment) (ae : AppError)
    (ha1 : AddCommentTool.validateAndParseParams aa = .ok ap)
    (ha2 : JiraClientAdapter.addComment conn ap.issueKey ap.body ab = .error ae)
    (aa2 : Option AddCommentArgs) (am : String)
    (ha3 : AddCommentTool.validateAndParseParams aa2 = .error am) :
    ListIssuesTool.execute conn la lb =
      .error (.jsError ("Failed to list issues: " ++ le.message)) ∧
    ListIssuesTool.execute conn la2 lb = .error (.jsError lm) ∧
    CreateIssueTool.execute conn ca cb1 cb2 =
      .error (.jsError ("Failed to create issue: " ++ ce.message)) ∧
    CreateIssueTool.execute conn ca2 cb1 cb2 = .error (.jsError cm) ∧
    AddCommentTool.execute conn aa ab =
      .error (.jsError ("Failed to add comment: " ++ ae.message)) ∧
    AddCommentTool.execute conn aa2 ab = .error (.jsError am) := by
  refine ⟨?_, ?_, ?_, ?_, ?_, ?_⟩
  · simp [ListIssuesTool.execute, hl1, hl2]
  · simp [ListIssuesTool.execute, hl3]
  · simp [CreateIssueTool.execute, hc1, hc2]
  · simp [CreateIssueTool.execute, hc3]
  · simp [AddCommentTool.execute, ha1, ha2]
  · simp [AddCommentTool.execute, ha3]

/-- Witness for C2: on a disconnected adapter, valid arguments surface the
prefixed not-connected error, while invalid arguments surface the validator's
bare message. -/
theorem c2_witness :
    ListIssuesTool.execute false none (fun _ => .success {}) =
      .error (.jsError ("Failed to list issues: " ++ notConnectedError.message)) ∧
    ListIssuesTool.execute false (some { jql := some (.vnum 3) }) (fun _ => .success {}) =
      .error (.jsError "jql parameter must be a string") ∧
    CreateIssueTool.execute false
      (some { projectKey := some (.vstr "PROJ"), issueType := some (.vstr "Task"),
              summary := some (.vstr "Fix") })
      (fun _ => .success { key := "PROJ-9" }) (fun k => .success { key := k }) =
      .error (.jsError ("Failed to create issue: " ++ notConnectedError.message)) ∧
    CreateIssueTool.execute false none
      (fun _ => .success { key := "PROJ-9" }) (fun k => .success { key := k }) =
      .error (.jsError "Arguments are required for creating an issue") ∧
    AddCommentTool.execute false
      (some { issueKey := some (.vstr "PROJ-1"), body := some (.vstr "hello") })
      (fun _ _ => .success { id := "1", body := "hello" }) =
      .error (.jsError ("Failed to add comment: " ++ notConnectedError.message)) ∧
    AddCommentTool.execute false none (fun _ _ => .success { id := "1", body := "hello" }) =
      .error (.jsError "Arguments are required for adding a comment") :=
  c2_prefix_scope false
    none {} (fun _ => .success {}) notConnectedError rfl rfl
    (some { jql := some (.vnum 3) }) "jql parameter must be a string" rfl
    (some { projectKey := some (.vstr "PROJ"), issueType := some (.vstr "Task"),
            summary := some (.vstr "Fix") })
    { projectKey := "PROJ", issueType := "Task", summary := "Fix" }
    (fun _ => .success { key := "PROJ-9" }) (fun k => .success { key := k })
    notConnectedError rfl rfl
    none "Arguments are required for creating an issue" rfl
    (some { issueKey := some (.vstr "PROJ-1"), body := some (.vstr "hello") })
    { issueKey := "PROJ-1", body := "hello" }
    (fun _ _ => .success { id := "1", body := "hello" }) notConnectedError rfl rfl
    none "Arguments are required for adding a comment" rfl

theorem c6_maxResults_range (q : ℚ) :
    ListIssuesTool.validateAndParseParams (some { maxResults := some (.vnum q) }) =
      (if q < 1 ∨ q > 1000 then .error "maxResults must be a number between 1 and 1000"
       else .ok { maxResults := some ((Rat.floor q : ℤ) : ℚ) }) ∧
    ((q < 1 ∨ q > 1000) ∨
      (searchOptionsOf { maxResults := some ((Rat.floor q : ℤ) : ℚ) }).maxResults =
        ((Rat.floor q : ℤ) : ℚ)) := by
  constructor
  · by_cases h : q < 1 ∨ q > 1000 <;>
      simp [ListIssuesTool.validateAndParseParams, checkJql, checkMaxResults, checkStartAt,
        checkFields, h]
  · by_cases h : q < 1 ∨ q > 1000
    · exact Or.inl h
    · right
      push_neg at h
      have h1 : (1 : ℤ) ≤ Rat.floor q := Rat.le_floor.mpr (by exact_mod_cast h.1)
      have h2 : (0 : ℤ) < Rat.floor q := by omega
      have hne : ((Rat.floor q : ℤ) : ℚ) ≠ 0 := by exact_mod_cast h2.ne'
      simp [searchOptionsOf, jsOrNum, hne]

theorem c5_summary_acceptance (s : String) :
    isOkE (CreateIssueTool.validateAndParseParams
      (some { projectKey := some (.vstr "PROJ"), issueType := some (.vstr "Task"),
              summary := some (.vstr s) })) = true ↔
      (1 ≤ (jsTrim s).length ∧ s.length ≤ 255) := by
  by_cases h0 : s = ""
  · subst h0; decide
  · have hp : projectKeyPattern "PROJ" = true := by decide
    simp [CreateIssueTool.validateAndParseParams, reqString, optTrimmedString,
      checkLabels, checkCustomFields, h0, hp, isOkE]
    split_ifs with h1 h2 <;> simp [isOkE] <;> omega

theorem strLength_zero_iff {s : String} : s.length = 0 ↔ s = "" := by
  cases s with
  | mk data =>
    constructor
    · intro h
      have hd : data = [] := List.length_eq_zero.mp h
      rw [hd]
    · intro h
      rw [h]
      rfl

theorem collectLabels_strings (ls : List String) :
    collectLabels (ls.map .vstr) =
      .ok ((ls.map jsTrim).filter fun t => decide (0 < t.length)) := by
  induction ls with
  | nil => rfl
  | cons a as ih =>
    by_cases h : 0 < (jsTrim a).length <;>
      simp [collectLabels, ih, List.filter_cons, h]

theorem c8_labels_normalization (ls : List String) :
    CreateIssueTool.validateAndParseParams
      (some { projectKey := some (.vstr "PROJ"), issueType := some (.vstr "Task"),
              summary := some (.vstr "Fix"), labels := some (.varr (ls.map .vstr)) }) =
      .ok { projectKey := "PROJ", issueType := "Task", summary := "Fix",
            labels :=
              (if 0 < ((ls.map jsTrim).filter fun t => decide (0 < t.length)).length then
                some ((ls.map jsTrim).filter fun t => decide (0 < t.length))
              else none) } ∧
    CreateIssueTool.validateAndParseParams
      (some { projectKey := some (.vstr "PROJ"), issueType := some (.vstr "Task"),
              summary := some (.vstr "Fix"),
              labels := some (.varr [.vstr "", .vstr "  ", .vstr "bug"]) }) =
      .ok { projectKey := "PROJ", issueType := "Task", summary := "Fix",
            labels := some ["bug"] } := by
  constructor
  · simp only [CreateIssueTool.validateAndParseParams, reqString, optTrimmedString,
      checkLabels, checkCustomFields, collectLabels_strings]
    rfl
  · rfl

theorem c7_fields_validation (s : String) :
    (jsTrim s = "" →
      ListIssuesTool.validateAndParseParams (some { fields := some (.vstr s) }) = .ok {}) ∧
    (jsTrim s ≠ "" →
      (∀ t ∈ (strSplit (jsTrim s) ',').map jsTrim, t ≠ "" ∧ fieldNamePattern t = true) →
      ListIssuesTool.validateAndParseParams (some { fields := some (.vstr s) }) =
        .ok { fields := some (jsTrim s) }) ∧
    (jsTrim s ≠ "" →
      (∃ t ∈ (strSplit (jsTrim s) ',').map jsTrim, t = "" ∨ fieldNamePattern t = false) →
      ListIssuesTool.validateAndParseParams (some { fields := some (.vstr s) }) =
        .error ("Invalid field names: " ++ String.intercalate ", "
            (((strSplit (jsTrim s) ',').map jsTrim).filter fun f =>
              f.length = 0 || !fieldNamePattern f) ++
          ". Field names must contain only letters, numbers, and underscores.")) := by
  refine ⟨?_, ?_, ?_⟩
  · intro h
    simp [ListIssuesTool.validateAndParseParams, checkJql, checkMaxResults, checkStartAt,
      checkFields, h]
  · intro hne hall
    have hlen : 0 < (jsTrim s).length :=
      Nat.pos_of_ne_zero (fun hz => hne (strLength_zero_iff.mp hz))
    have hfilter : (((strSplit (jsTrim s) ',').map jsTrim).filter fun f =>
        f.length = 0 || !fieldNamePattern f) = [] := by
      refine List.filter_eq_nil_iff.mpr ?_
      intro t ht
      rcases hall t ht with ⟨hne2, hpat⟩
      simp [hpat, strLength_zero_iff, hne2]
    simp [ListIssuesTool.validateAndParseParams, checkJql, checkMaxResults, checkStartAt,
      checkFields, hlen, hfilter]
  · intro hne hex
    have hlen : 0 < (jsTrim s).length :=
      Nat.pos_of_ne_zero (fun hz => hne (strLength_zero_iff.mp hz))
    obtain ⟨t, ht, hbad⟩ := hex
    have hmem : t ∈ (((strSplit (jsTrim s) ',').map jsTrim).filter fun f =>
        f.length = 0 || !fieldNamePattern f) := by
      refine List.mem_filter.mpr ⟨ht, ?_⟩
      rcases hbad with h | h
      · simp [h]
      · simp [h]
    have hpos : 0 < ((((strSplit (jsTrim s) ',').map jsTrim).filter fun f =>
        f.length = 0 || !fieldNamePattern f)).length :=
      List.length_pos.mpr (List.ne_nil_of_mem hmem)
    simp [ListIssuesTool.validateAndParseParams, checkJql, checkMaxResults, checkStartAt,
      checkFields, hlen, hpos]

/-- Witness for C7 at the spec's round-trip example: the trimmed string is
passed through unchanged with token order preserved. -/
theorem c7_witness :
    ListIssuesTool.validateAndParseParams
      (some { fields := some (.vstr " summary, status , assignee ") }) =
      .ok { fields := some (jsTrim " summary, status , assignee ") } :=
  (c7_fields_validation " summary, status , assignee ").2.1 (by decide) (by decide)

end JiraMcp
